import Mathlib

/-!
Verification of the parity-check core of `parity_check_app.py`.

The program builds a fixed 3-qubit / 1-classical-bit circuit
(`create_parity_check_circuit`), runs it on a simulator backend for a
number of shots, collects an outcome-frequency table (`counts`), and
classifies the dominant readout bit as "Even" or "Odd"
(`parity_result_bit` / `parity`).

The circuit contains only classical-reversible gates (X, CX) applied to
basis states, so it is embedded with an exact Boolean-state evaluator.
The simulator backend itself is an external library; its behaviour on
this deterministic circuit is modelled from the specification
(`simulate` below).
-/

namespace ParityCheck

/-- Runtime failures of the Python code that the embedding makes explicit:
`indexError` models a Python `IndexError` (out-of-range string or list
subscript). -/
inductive PyError where
  | indexError
  deriving DecidableEq

/-- Instructions appended to the circuit by the source: `qc.x q`,
`qc.cx c t`, `qc.barrier()` and `qc.measure q c`. -/
inductive Instr where
  | x (q : Nat)
  | cx (c t : Nat)
  | barrier
  | measure (q c : Nat)
  deriving DecidableEq

/-- The circuit object: `QuantumCircuit(numQubits, numClbits)` together
with the ordered list of instructions appended to it. -/
structure QuantumCircuit where
  numQubits : Nat
  numClbits : Nat
  instrs : List Instr
  deriving DecidableEq

/-- Character of a string at a Python index, if in range. -/
def charAt (s : String) (i : Nat) : Option Char :=
  s.data.get? i

/-- Embedding of `create_parity_check_circuit` (src/parity_check_app.py,
lines 8-22).  Python raises `IndexError` when `input_state[0]` or
`input_state[1]` is out of range; otherwise the function performs no
validation and appends: `x 0` if char 0 is '1', `x 1` if char 1 is '1',
a barrier, `cx 0 2`, `cx 1 2`, a barrier, `measure 2 0`. -/
def create_parity_check_circuit (input_state : String) : Except PyError QuantumCircuit :=
  match charAt input_state 0 with
  | none => .error .indexError
  | some c0 =>
    match charAt input_state 1 with
    | none => .error .indexError
    | some c1 =>
      .ok { numQubits := 3, numClbits := 1,
            instrs :=
              (if c0 = '1' then [Instr.x 0] else []) ++
              (if c1 = '1' then [Instr.x 1] else []) ++
              [Instr.barrier, Instr.cx 0 2, Instr.cx 1 2,
               Instr.barrier, Instr.measure 2 0] }

/-- The circuit `create_parity_check_circuit` produces, as a function of
the two Booleans "char 0 is '1'" and "char 1 is '1'". -/
def parityCircuit (b0 b1 : Bool) : QuantumCircuit :=
  { numQubits := 3, numClbits := 1,
    instrs :=
      (if b0 then [Instr.x 0] else []) ++
      (if b1 then [Instr.x 1] else []) ++
      [Instr.barrier, Instr.cx 0 2, Instr.cx 1 2,
       Instr.barrier, Instr.measure 2 0] }

/-- Evaluator state: the Boolean values of the storage cells (qubits,
all gates here map basis states to basis states) and of the classical
readout slots. -/
structure EvalState where
  qubits : List Bool
  clbits : List Bool
  deriving DecidableEq

/-- One instruction's effect on the evaluator state.  `x` inverts a
cell, `cx` inverts the target iff the control holds 1, `barrier` is a
diagram separator with no effect, `measure` copies a cell's value into a
classical slot (the computation is deterministic, so ideal readout
returns the exact value). -/
def applyInstr (st : EvalState) : Instr → EvalState
  | .x q => { st with qubits := st.qubits.set q (!(st.qubits.getD q false)) }
  | .cx c t =>
      if st.qubits.getD c false then
        { st with qubits := st.qubits.set t (!(st.qubits.getD t false)) }
      else st
  | .barrier => st
  | .measure q c => { st with clbits := st.clbits.set c (st.qubits.getD q false) }

/-- Initial state of a circuit: every cell and every classical slot
starts at 0. -/
def initState (qc : QuantumCircuit) : EvalState :=
  { qubits := List.replicate qc.numQubits false,
    clbits := List.replicate qc.numClbits false }

/-- Run all instructions of a circuit from the initial state. -/
def runCircuit (qc : QuantumCircuit) : EvalState :=
  qc.instrs.foldl applyInstr (initState qc)

/-- Recognize the readout instruction. -/
def isMeasure : Instr → Bool
  | .measure _ _ => true
  | _ => false

/-- Recognize a barrier.  Barriers are diagram separators: they carry no
semantics (`applyInstr st .barrier = st`) and are not operations of the
spec's NetworkDescription data model. -/
def isBarrier : Instr → Bool
  | .barrier => true
  | _ => false

/-- Whether the character of the input string at a position is '1' (the
only test the builder performs on its input). -/
def inputBit (s : String) (i : Nat) : Bool :=
  charAt s i = some '1'

/-- Evaluator state immediately before the first readout instruction. -/
def stateBeforeReadout (qc : QuantumCircuit) : EvalState :=
  (qc.instrs.takeWhile (fun i => !(isMeasure i))).foldl applyInstr (initState qc)

/-- The key under which one trial's outcome is recorded: the classical
register rendered as a bitstring, most significant (highest index) slot
first, as the backend's `get_counts` renders it. -/
def trialOutcome (qc : QuantumCircuit) : String :=
  String.mk ((runCircuit qc).clbits.reverse.map (fun b => if b then '1' else '0'))

/-- A frequency table: outcome keys with occurrence counts, in insertion
order (mirrors the Python dict returned by `get_counts`). -/
abbrev FrequencyTable : Type := List (String × Nat)

/-- Record one occurrence of a key in the running tally. -/
def bump : FrequencyTable → String → FrequencyTable
  | [], k => [(k, 1)]
  | (k1, c) :: rest, k =>
      if k1 = k then (k1, c + 1) :: rest else (k1, c) :: bump rest k

/-- Aggregate a list of trial outcomes into a frequency table. -/
def tally (outcomes : List String) : FrequencyTable :=
  outcomes.foldl bump []

/-- Failure mode of the trial simulator. -/
inductive SimError where
  | invalidTrialCount
  deriving DecidableEq

/-- Modelled from the spec: the Trial Simulator (spec section 4.2).  The
actual sampling happens inside the external backend
(`AerSimulator().run(qc, shots=shots)` / `result.get_counts(qc)`, lines
67-71), whose code is not part of this repository; the spec describes it
as an exact deterministic evaluation repeated `trials` times with the
outcomes aggregated into a tally, failing with `InvalidTrialCountError`
when `trials <= 0`. -/
def simulate (qc : QuantumCircuit) (trials : Int) : Except SimError FrequencyTable :=
  if trials ≤ 0 then .error .invalidTrialCount
  else .ok (tally (List.replicate trials.toNat (trialOutcome qc)))

/-- Embedding of `parity_result_bit = list(counts.keys())[0]` (line 73):
the first key of the table; Python raises `IndexError` on an empty
table. -/
def parity_result_bit (counts : FrequencyTable) : Except PyError String :=
  match counts with
  | [] => .error .indexError
  | (k, _) :: _ => .ok k

/-- Embedding of `parity = "Even" if parity_result_bit == "0" else "Odd"`
(line 74). -/
def parityLabel (bit : String) : String :=
  if bit = "0" then "Even" else "Odd"

/-- The classifier stage (spec section 4.3): the pair of the parity
label and the dominant readout value, computed from lines 73-74. -/
def classify (counts : FrequencyTable) : Except PyError (String × String) :=
  match parity_result_bit counts with
  | .error e => .error e
  | .ok bit => .ok (parityLabel bit, bit)

/-- Validity of an input state per the spec's data model: exactly two
characters, each '0' or '1'. -/
def isValidInput (s : String) : Bool :=
  s.length = 2 && s.data.all (fun c => c = '0' || c = '1')

/-- Validity of a network per the spec's data model (spec section 3):
the networks the Builder produces on valid inputs. -/
def validNetwork (qc : QuantumCircuit) : Prop :=
  ∃ s, isValidInput s = true ∧ create_parity_check_circuit s = .ok qc

/-! ## Helper lemmas -/

/-- A barrier has no effect on the evaluator state. -/
theorem applyInstr_barrier (st : EvalState) : applyInstr st .barrier = st := rfl

/-- The only valid input states are the four 2-bit strings. -/
theorem valid_cases (s : String) (h : isValidInput s = true) :
    s = "00" ∨ s = "01" ∨ s = "10" ∨ s = "11" := by
  obtain ⟨l⟩ := s
  rcases l with _ | ⟨a, _ | ⟨b, _ | ⟨c, t⟩⟩⟩
  · simp [isValidInput, String.length] at h
  · simp [isValidInput, String.length] at h
  · simp [isValidInput, String.length, List.all_cons, Bool.or_eq_true, beq_iff_eq] at h
    rcases h with ⟨rfl | rfl, rfl | rfl⟩ <;> decide
  · simp [isValidInput, String.length] at h

/-- On any string with at least two characters the builder succeeds,
and the network depends only on whether characters 0 and 1 equal '1'. -/
theorem create_cons (a b : Char) (t : List Char) :
    create_parity_check_circuit ⟨a :: b :: t⟩ = .ok (parityCircuit (a == '1') (b == '1')) := by
  by_cases ha : a = '1' <;> by_cases hb : b = '1' <;>
    simp [create_parity_check_circuit, charAt, parityCircuit, ha, hb]

/-- Tallying `n` further copies of a key already in the table adds `n`
to its count. -/
theorem foldl_bump_replicate (n : Nat) (k : String) :
    ∀ m : Nat, List.foldl bump [(k, m)] (List.replicate n k) = [(k, m + n)] := by
  induction n with
  | zero => intro m; simp
  | succ n ih =>
    intro m
    rw [List.replicate_succ, List.foldl_cons]
    have hb : bump [(k, m)] k = [(k, m + 1)] := by simp [bump]
    rw [hb, ih]
    have : m + 1 + n = m + (n + 1) := by omega
    rw [this]

/-- Tallying `n ≥ 1` identical outcomes collapses to a single key with
count `n`. -/
theorem tally_replicate (n : Nat) (k : String) (h : 0 < n) :
    tally (List.replicate n k) = [(k, n)] := by
  obtain ⟨m, rfl⟩ : ∃ m, n = m + 1 := ⟨n - 1, by omega⟩
  rw [tally, List.replicate_succ, List.foldl_cons]
  have hb : bump [] k = [(k, 1)] := rfl
  rw [hb, foldl_bump_replicate]
  rw [Nat.add_comm]

/-- With a positive trial count the simulator returns the singleton
table on the circuit's deterministic outcome. -/
theorem simulate_pos (qc : QuantumCircuit) (N : Int) (hN : 1 ≤ N) :
    simulate qc N = .ok [(trialOutcome qc, N.toNat)] := by
  rw [simulate, if_neg (by omega)]
  rw [tally_replicate _ _ (by omega)]

/-- The deterministic readout of the built circuit is the exclusive-OR
of the two input bits, rendered as '1' or '0'. -/
theorem trialOutcome_parityCircuit (b0 b1 : Bool) :
    trialOutcome (parityCircuit b0 b1) = if b0 != b1 then "1" else "0" := by
  cases b0 <;> cases b1 <;> rfl

/-- Cell 2 immediately before the readout holds the exclusive-OR of the
two input bits. -/
theorem accumulator_before_readout (b0 b1 : Bool) :
    (stateBeforeReadout (parityCircuit b0 b1)).qubits.getD 2 false = (b0 != b1) := by
  cases b0 <;> cases b1 <;> rfl

/-- Full characterization of the builder on strings of length at least
two: it succeeds, and its result depends only on whether the characters
at positions 0 and 1 are '1'. -/
theorem build_eq (s : String) (h2 : 2 ≤ s.length) :
    create_parity_check_circuit s = .ok (parityCircuit (inputBit s 0) (inputBit s 1)) := by
  obtain ⟨l⟩ := s
  rcases l with _ | ⟨a, _ | ⟨b, t⟩⟩
  · simp [String.length] at h2
  · simp [String.length] at h2
  · rw [create_cons a b t]
    have h0 : inputBit ⟨a :: b :: t⟩ 0 = (a == '1') := by
      by_cases ha : a = '1' <;> simp [inputBit, charAt, ha]
    have h1 : inputBit ⟨a :: b :: t⟩ 1 = (b == '1') := by
      by_cases hb1 : b = '1' <;> simp [inputBit, charAt, hb1]
    rw [h0, h1]

/-! ## Claim theorems -/

/-- C1: for every valid 2-character input state over '0'/'1' and every
trial count N ≥ 1, the composition classify (simulate (build s) N)
yields the label "Even" iff the two characters of s are equal, and "Odd"
iff they differ. -/
theorem C1_pipeline_even_odd (s : String) (hs : isValidInput s = true)
    (N : Int) (hN : 1 ≤ N) :
    ∃ qc table lbl bit,
      create_parity_check_circuit s = .ok qc ∧
      simulate qc N = .ok table ∧
      classify table = .ok (lbl, bit) ∧
      (lbl = "Even" ↔ charAt s 0 = charAt s 1) ∧
      (lbl = "Odd" ↔ charAt s 0 ≠ charAt s 1) := by
  rcases valid_cases s hs with rfl | rfl | rfl | rfl <;>
    exact ⟨_, _, _, _, rfl, simulate_pos _ N hN, rfl, by decide, by decide⟩

/-- C1 witness: the pipeline at input "01" with N = 5 (odd parity). -/
theorem C1_pipeline_even_odd_witness :
    isValidInput "01" = true ∧ 1 ≤ (5 : Int) ∧
      (∃ qc table lbl bit,
        create_parity_check_circuit "01" = .ok qc ∧
        simulate qc 5 = .ok table ∧
        classify table = .ok (lbl, bit) ∧
        (lbl = "Even" ↔ charAt "01" 0 = charAt "01" 1) ∧
        (lbl = "Odd" ↔ charAt "01" 0 ≠ charAt "01" 1)) :=
  ⟨by decide, by decide, C1_pipeline_even_odd "01" (by decide) 5 (by decide)⟩

/-- C2 counterexample: "2x" is not a valid input state (neither
character is in {'0','1'}), yet the builder does not fail at all — it
returns a network, refuting the claim that every invalid input fails
with InvalidInputError. -/
theorem C2_counterexample :
    isValidInput "2x" = false ∧
      create_parity_check_circuit "2x" = .ok (parityCircuit false false) :=
  ⟨by decide, rfl⟩

/-- C2 (amended): the builder performs no validation.  It fails only
when the input has fewer than two characters, and then with a Python
IndexError from the out-of-range subscript, not an InvalidInputError
(no such error exists in the code); every input of length ≥ 2, binary
or not, builds a network.  In particular build "0" (length 1) fails,
but with an index error. -/
theorem C2_amended_no_validation (s : String) :
    (s.length < 2 → create_parity_check_circuit s = .error .indexError) ∧
    (2 ≤ s.length → ∃ qc, create_parity_check_circuit s = .ok qc) := by
  obtain ⟨l⟩ := s
  rcases l with _ | ⟨a, _ | ⟨b, t⟩⟩
  · exact ⟨fun _ => rfl, fun h => by simp [String.length] at h⟩
  · exact ⟨fun _ => rfl, fun h => by simp [String.length] at h⟩
  · refine ⟨fun h => ?_, fun _ => ⟨_, create_cons a b t⟩⟩
    exact absurd h (by simp [String.length])

/-- C2 witness: build "0" (length 1) fails with an index error. -/
theorem C2_amended_no_validation_witness :
    ("0" : String).length < 2 ∧
      create_parity_check_circuit "0" = .error .indexError :=
  ⟨by decide, (C2_amended_no_validation "0").1 (by decide)⟩

/-- C3: for every valid input the builder deterministically emits, in
order, a Set on cell 0 only if character 0 is '1', a Set on cell 1 only
if character 1 is '1', then ConditionalInvert (0,2), ConditionalInvert
(1,2), and Readout (2, slot 0).  The emitted circuit also contains two
barrier instructions, which are semantically inert diagram separators
(applyInstr_barrier) and not operations of the spec's
NetworkDescription data model, so the operation sequence is read off by
discarding barriers. -/
theorem C3_operation_order (s : String) (qc : QuantumCircuit)
    (hs : isValidInput s = true)
    (hb : create_parity_check_circuit s = .ok qc) :
    qc.instrs.filter (fun i => !(isBarrier i)) =
      (if inputBit s 0 then [Instr.x 0] else []) ++
      (if inputBit s 1 then [Instr.x 1] else []) ++
      [Instr.cx 0 2, Instr.cx 1 2, Instr.measure 2 0] := by
  rcases valid_cases s hs with rfl | rfl | rfl | rfl <;>
    (rw [build_eq _ (by decide)] at hb; injection hb with h; subst h; decide)

/-- C3 witness: the operation order at input "10". -/
theorem C3_operation_order_witness :
    isValidInput "10" = true ∧
      (parityCircuit true false).instrs.filter (fun i => !(isBarrier i)) =
        (if inputBit "10" 0 then [Instr.x 0] else []) ++
        (if inputBit "10" 1 then [Instr.x 1] else []) ++
        [Instr.cx 0 2, Instr.cx 1 2, Instr.measure 2 0] :=
  ⟨by decide, C3_operation_order "10" (parityCircuit true false) (by decide) rfl⟩

/-- C4: for every valid input, after evaluating the built network's Set
and ConditionalInvert operations, the accumulator cell 2 immediately
before the readout holds the exclusive-OR of the two input bits. -/
theorem C4_accumulator_xor (s : String) (qc : QuantumCircuit)
    (hs : isValidInput s = true)
    (hb : create_parity_check_circuit s = .ok qc) :
    (stateBeforeReadout qc).qubits.getD 2 false = (inputBit s 0 != inputBit s 1) := by
  rcases valid_cases s hs with rfl | rfl | rfl | rfl <;>
    (rw [build_eq _ (by decide)] at hb; injection hb with h; subst h; decide)

/-- C4 witness: on input "10" the accumulator before readout holds 1. -/
theorem C4_accumulator_xor_witness :
    isValidInput "10" = true ∧
      (stateBeforeReadout (parityCircuit true false)).qubits.getD 2 false =
        (inputBit "10" 0 != inputBit "10" 1) :=
  ⟨by decide, C4_accumulator_xor "10" (parityCircuit true false) (by decide) rfl⟩

/-- C5: for every valid network and trial count N ≥ 1, the simulator
returns a table with a single key ('0' or '1') whose count is N; in
particular its counts sum exactly to N. -/
theorem C5_collapse_sum (qc : QuantumCircuit) (hqc : validNetwork qc)
    (N : Int) (hN : 1 ≤ N) :
    ∃ k table, simulate qc N = .ok table ∧ table = [(k, N.toNat)] ∧
      (k = "0" ∨ k = "1") ∧ ((table.map Prod.snd).sum : Int) = N := by
  obtain ⟨s, hs, hb⟩ := hqc
  refine ⟨trialOutcome qc, [(trialOutcome qc, N.toNat)],
    simulate_pos qc N hN, rfl, ?_, ?_⟩
  · rcases valid_cases s hs with rfl | rfl | rfl | rfl <;>
      (rw [build_eq _ (by decide)] at hb; injection hb with h; subst h; decide)
  · simp
    omega

/-- C5 witness: the network built from "11" with N = 7. -/
theorem C5_collapse_sum_witness :
    validNetwork (parityCircuit true true) ∧ 1 ≤ (7 : Int) ∧
      (∃ k table, simulate (parityCircuit true true) 7 = .ok table ∧
        table = [(k, (7 : Int).toNat)] ∧ (k = "0" ∨ k = "1") ∧
        ((table.map Prod.snd).sum : Int) = 7) :=
  ⟨⟨"11", by decide, rfl⟩, by decide,
    C5_collapse_sum (parityCircuit true true) ⟨"11", by decide, rfl⟩ 7 (by decide)⟩

/-- C6 counterexample: on the table with key "1" first (count 1) and
key "0" second (count 5), the classifier selects "1" and answers "Odd",
although "0" has the strictly greatest count (and greatest-count
selection would give "Even"); the code takes the first key, not the
most frequent one. -/
theorem C6_counterexample :
    classify [("1", 1), ("0", 5)] = .ok ("Odd", "1") ∧ (1 : Nat) < 5 :=
  ⟨rfl, by decide⟩

/-- C6 (amended): for every non-empty frequency table the classifier
selects the table's first key in insertion order — not the key with the
greatest count — and maps '0' to "Even" and any other key to "Odd".
(On the single-key tables the deterministic simulator produces, the
first key and the greatest-count key coincide.) -/
theorem C6_amended_first_key (k : String) (c : Nat) (rest : FrequencyTable) :
    classify ((k, c) :: rest) = .ok ((if k = "0" then "Even" else "Odd"), k) := rfl

/-- C7: for every network and every trial count ≤ 0, the simulator
fails with the invalid-trial-count error and returns no table. -/
theorem C7_nonpositive_trials (qc : QuantumCircuit) (N : Int) (hN : N ≤ 0) :
    simulate qc N = .error .invalidTrialCount := by
  rw [simulate, if_pos hN]

/-- C7 witness: zero trials on a built network. -/
theorem C7_nonpositive_trials_witness :
    simulate (parityCircuit false false) 0 = .error .invalidTrialCount :=
  C7_nonpositive_trials (parityCircuit false false) 0 (by decide)

/-- C8: the simulator is a deterministic function of the network and
the trial count: two runs with the same arguments that return tables
return the same table. -/
theorem C8_determinism (qc : QuantumCircuit) (N : Int) (t1 t2 : FrequencyTable)
    (h1 : simulate qc N = .ok t1) (h2 : simulate qc N = .ok t2) : t1 = t2 := by
  rw [h1] at h2
  exact Except.ok.inj h2

/-- C8 witness: two runs on the "00" network with N = 2. -/
theorem C8_determinism_witness : ([("0", 2)] : FrequencyTable) = [("0", 2)] :=
  C8_determinism (parityCircuit false false) 2 [("0", 2)] [("0", 2)] rfl rfl

/-- C9: the builder inspects only characters 0 and 1; every string of
length ≥ 2 builds without error, any character other than '1' at those
positions acts as '0', and characters past position 1 are ignored — the
result is exactly the circuit determined by the two tests "character i
is '1'". -/
theorem C9_no_validation_builder (s : String) (h2 : 2 ≤ s.length) :
    create_parity_check_circuit s = .ok (parityCircuit (inputBit s 0) (inputBit s 1)) :=
  build_eq s h2

/-- C9 witness: "2x" (non-binary) builds the same network as "00". -/
theorem C9_no_validation_builder_witness :
    2 ≤ ("2x" : String).length ∧
      create_parity_check_circuit "2x" =
        .ok (parityCircuit (inputBit "2x" 0) (inputBit "2x" 1)) :=
  ⟨by decide, C9_no_validation_builder "2x" (by decide)⟩

/-- C10: whatever dominant readout value the classifier selects, the
label is "Even" exactly when that value is the string "0", and every
other selected value is labelled "Odd". -/
theorem C10_only_zero_even (t : FrequencyTable) (lbl bit : String)
    (h : classify t = .ok (lbl, bit)) :
    (lbl = "Even" ↔ bit = "0") ∧ (bit ≠ "0" → lbl = "Odd") := by
  rcases t with _ | ⟨⟨k, c⟩, rest⟩
  · exact absurd h (by simp [classify, parity_result_bit])
  · have hE : Except.ok (ε := PyError) (parityLabel k, k) = Except.ok (lbl, bit) := h
    injection hE with hp
    injection hp with h1 h2
    subst h1
    subst h2
    by_cases hk : k = "0"
    · subst hk
      simp [parityLabel]
    · exact ⟨iff_of_false (by simp [parityLabel, hk]) hk, fun _ => by simp [parityLabel, hk]⟩

/-- C10 witness: a non-"0" dominant value ("1") is labelled "Odd". -/
theorem C10_only_zero_even_witness :
    (("Odd" : String) = "Even" ↔ ("1" : String) = "0") ∧
      (("1" : String) ≠ "0" → ("Odd" : String) = "Odd") :=
  C10_only_zero_even [("1", 1024)] "Odd" "1" rfl

end ParityCheck
